import Mathlib

/-!
Shallow embedding of the order-bot sample (`src/dialogs/mainDialog.js`,
`src/dialogs/orderDialog.js`, `src/dialogs/orderRecognizer.js`).

JavaScript objects holding the order slots are embedded as an `OrderDetails`
structure with `Option` fields (an absent property is `none`); JS truthiness
on those fields is made explicit via `jsTruthy`.  Values flowing between
waterfall steps (`stepContext.result`) are embedded as the dynamic type
`JsVal`.  Dialog effects (prompting, beginning a sub-dialog, ending with a
result) are reified as `DialogAction` so that theorems can speak about which
action a step takes.
-/

/-- The order record built up by the waterfall (`orderDetails` in the source).
Only the properties the program ever assigns are fields: `item` and
`deliveryDate`. -/
structure OrderDetails where
  item : Option String
  deliveryDate : Option String
deriving Repr, DecidableEq

/-- JS truthiness of an optional string property: `undefined` and the empty
string are falsy, every other string is truthy. -/
def jsTruthy : Option String → Bool
  | none => false
  | some s => !s.isEmpty

/-- JS string interpolation of a possibly-undefined value (template literals
render `undefined` as the text "undefined"). -/
def jsDisplay : Option String → String
  | none => "undefined"
  | some s => s

/-- Dynamic values passed between waterfall steps via `stepContext.result` /
`stepContext.next(...)` and as dialog options. -/
inductive JsVal where
  | undefined : JsVal
  | str : String → JsVal
  | bool : Bool → JsVal
  | order : OrderDetails → JsVal
  | resolverOpts : Option String → JsVal
deriving Repr, DecidableEq

/-- Reading a step result into an optional string property
(`orderDetails.item = stepContext.result`). -/
def jsToOptStr : JsVal → Option String
  | .str s => some s
  | _ => none

/-- Passing an optional string property as a step result
(`stepContext.next(orderDetails.item)`). -/
def jsValOfOpt : Option String → JsVal
  | none => .undefined
  | some s => .str s

/-!
## TIMEX date expressions

`orderDialog.js` delegates definiteness to the third-party timex library
(`new TimexProperty(timex).types.has('definite')`).  That library is not part
of this repository's sources, so the date-expression model below is built
from the spec's description of TIMEX-like date expressions: a dash-separated
date string whose components may be unspecified (`XXXX` for a missing year,
week-based forms carrying only a day of week), and which is *definite*
exactly when year, month and day of month are all specified.
-/

/-- Modelled from the spec: the properties the timex library infers from the
date portion of a TIMEX expression (the `TimexProperty` of the library, which
is not under `src/`). -/
structure TimexProps where
  year : Option Nat
  month : Option Nat
  dayOfMonth : Option Nat
  dayOfWeek : Option Nat
deriving Repr, DecidableEq

/-- Splitting accumulator: collects the characters of the current component
(in reverse) and emits a component at each dash. -/
def splitDashAux : List Char → List Char → List String
  | [], acc => [{ data := acc.reverse }]
  | c :: cs, acc =>
    if c = '-' then { data := acc.reverse } :: splitDashAux cs []
    else splitDashAux cs (c :: acc)

/-- The dash-separated components of a string (the behavior of
`String.splitOn "-"` for this single-character separator). -/
def splitOnDash (s : String) : List String :=
  splitDashAux s.data []

/-- The numeric value of a decimal digit character, when it is one. -/
def digitVal? (c : Char) : Option Nat :=
  if 48 ≤ c.toNat ∧ c.toNat ≤ 57 then some (c.toNat - 48) else none

/-- Accumulating decimal parse of a character list; fails on the first
non-digit. -/
def parseNatCompAux : List Char → Nat → Option Nat
  | [], acc => some acc
  | c :: cs, acc =>
    match digitVal? c with
    | some d => parseNatCompAux cs (10 * acc + d)
    | none => none

/-- A timex component read as a decimal numeral (the behavior of
`String.toNat?`): `some` exactly when the component is nonempty and all
digits. -/
def parseNatComp (s : String) : Option Nat :=
  match s.data with
  | [] => none
  | l => parseNatCompAux l 0

/-- Whether a timex component is a week component (leading `W`). -/
def isWeekComp (c : String) : Bool :=
  match c.data with
  | 'W' :: _ => true
  | _ => false

/-- Modelled from the spec: a year component is unspecified when written
`XXXX`, otherwise it is the numeral. -/
def parseTimexYear (c : String) : Option Nat :=
  if c = "XXXX" then none else parseNatComp c

/-- Modelled from the spec: parse the date portion of a TIMEX expression into
its specified components.  Handles the dash-separated forms `YYYY`,
`YYYY-MM`, `YYYY-MM-DD`, with `XXXX` for an unspecified year and `W`-prefixed
middle component for week-based expressions (which carry a day of week rather
than a month and day of month). -/
def parseTimexDate (s : String) : TimexProps :=
  match splitOnDash s with
  | [y] => { year := parseTimexYear y, month := none, dayOfMonth := none, dayOfWeek := none }
  | [y, m] => { year := parseTimexYear y, month := parseNatComp m, dayOfMonth := none, dayOfWeek := none }
  | [y, m, d] =>
    if isWeekComp m then
      { year := parseTimexYear y, month := none, dayOfMonth := none, dayOfWeek := parseNatComp d }
    else
      { year := parseTimexYear y, month := parseNatComp m, dayOfMonth := parseNatComp d, dayOfWeek := none }
  | _ => { year := none, month := none, dayOfMonth := none, dayOfWeek := none }

/-- Modelled from the spec: the timex library assigns the type `definite` to
an expression exactly when it resolves to a single calendar date, i.e. year,
month and day of month are all specified. -/
def TimexProps.hasDefiniteType (p : TimexProps) : Bool :=
  p.year.isSome && p.month.isSome && p.dayOfMonth.isSome

/-!
## OrderRecognizer (`src/dialogs/orderRecognizer.js`)
-/

/-- An element of `result.entities.$instance.Deliver`: the raw recognized
text of a Deliver composite entity. -/
structure InstanceEntity where
  text : String
deriving Repr, DecidableEq

/-- An element of `result.entities.Deliver`: the resolved composite entity,
whose `ItemList` (when present) is a list of canonical-item resolution
lists. -/
structure DeliverEntity where
  ItemList : Option (List (List String))
deriving Repr, DecidableEq

/-- An element of `result.entities.datetime`: carries the `timex` list of
candidate TIMEX strings. -/
structure DatetimeEntity where
  timex : Option (List String)
deriving Repr, DecidableEq

/-- The entity set of a LUIS result, restricted to the entities the program
reads.  `dollarInstanceDeliver` embeds `entities.$instance.Deliver`. -/
structure LuisEntities where
  dollarInstanceDeliver : Option (List InstanceEntity)
  Deliver : Option (List DeliverEntity)
  datetime : Option (List DatetimeEntity)
deriving Repr, DecidableEq

/-- A LUIS recognition result as the dialogs consume it: the top intent
(`LuisRecognizer.topIntent(luisResult)`) and the entity set. -/
structure LuisResult where
  topIntent : String
  entities : LuisEntities
deriving Repr, DecidableEq

/-- The value returned by `getDeliverEntities`. -/
structure DeliverEntities where
  deliver : Option String
  itemList : Option String
deriving Repr, DecidableEq

/-- Embeds `orderRecognizer.js` `getDeliverEntities`: the raw phrase is
`entities.$instance.Deliver[0].text` when the instance data is present, and
the canonical item is `entities.Deliver[0].ItemList[0][0]` when the raw
phrase is truthy and the `ItemList` resolution is present. -/
def getDeliverEntities (result : LuisResult) : DeliverEntities :=
  let deliverValue : Option String :=
    match result.entities.dollarInstanceDeliver with
    | some insts => insts.head?.map InstanceEntity.text
    | none => none
  let deliverItemListValue : Option String :=
    if jsTruthy deliverValue then
      match result.entities.Deliver with
      | some dl =>
        match dl.head? with
        | some d =>
          match d.ItemList with
          | some il => (il.headD []).head?
          | none => none
        | none => none
      | none => none
    else none
  { deliver := deliverValue, itemList := deliverItemListValue }

/-- Embeds `timex[0].split('T')[0]`: the prefix of the string strictly before
its first `T` character. -/
def splitFirstT (t : String) : String :=
  { data := t.data.takeWhile (fun c => c != 'T') }

/-- Embeds `orderRecognizer.js` `getDeliveryDate`: guard on
`entities.datetime`, its first element, that element's `timex` list and the
first (JS-truthy, i.e. nonempty) TIMEX string, then drop the time part of
that string. -/
def getDeliveryDate (result : LuisResult) : Option String :=
  match result.entities.datetime with
  | none => none
  | some datetimeEntity =>
    match datetimeEntity.head? with
    | none => none
    | some first =>
      match first.timex with
      | none => none
      | some timex =>
        match timex.head? with
        | none => none
        | some t => if t.isEmpty then none else some (splitFirstT t)

/-- The three LUIS credentials (`LuisAppId`, `LuisAPIKey`, `LuisAPIHostName`
as consumed by the `OrderRecognizer` constructor). -/
structure LuisConfig where
  applicationId : Option String
  endpointKey : Option String
  endpoint : Option String
deriving Repr, DecidableEq

/-- The `OrderRecognizer` object: its `recognizer` property is set exactly
when construction found a complete configuration. -/
structure OrderRecognizer where
  recognizer : Option Unit
deriving Repr, DecidableEq

/-- Embeds the `OrderRecognizer` constructor: the inner LUIS recognizer is
created iff the config object and all three credentials are truthy. -/
def OrderRecognizer.ofConfig (config : Option LuisConfig) : OrderRecognizer :=
  let luisIsConfigured : Bool :=
    match config with
    | none => false
    | some c => jsTruthy c.applicationId && jsTruthy c.endpointKey && jsTruthy c.endpoint
  if luisIsConfigured then { recognizer := some () } else { recognizer := none }

/-- Embeds the `isConfigured` getter: `this.recognizer !== undefined`. -/
def OrderRecognizer.isConfigured (r : OrderRecognizer) : Bool :=
  r.recognizer.isSome

/-!
## OrderDialog (`src/dialogs/orderDialog.js`)
-/

/-- Prompt id `TEXT_PROMPT` of `orderDialog.js`. -/
def TEXT_PROMPT : String := "textPrompt"

/-- Prompt id `CONFIRM_PROMPT` of `orderDialog.js`. -/
def CONFIRM_PROMPT : String := "confirmPrompt"

/-- Dialog id `DATE_RESOLVER_DIALOG` of `orderDialog.js`. -/
def DATE_RESOLVER_DIALOG : String := "dateResolverDialog"

/-- The property `orderDetails.DeliveryDate` (capital `D`) read by
`deliveryDateStep`.  No statement in the repository ever assigns a property
of that name (the assigned property is `deliveryDate`), so in JS the read
always yields `undefined`. -/
def OrderDetails.DeliveryDate (_ : OrderDetails) : Option String := none

/-- The action a waterfall step takes. -/
inductive DialogAction where
  | prompt : String → String → DialogAction
  | next : JsVal → DialogAction
  | beginDialog : String → JsVal → DialogAction
  | endDialog : JsVal → DialogAction
deriving Repr, DecidableEq

/-- Embeds `isAmbiguous` of `orderDialog.js`: the TIMEX expression does not
carry the `definite` type. -/
def OrderDialog.isAmbiguous (timex : String) : Bool :=
  !(parseTimexDate timex).hasDefiniteType

/-- `isAmbiguous` lifted to a possibly-undefined date property: an absent
expression has no `definite` type.  (In the program the call is
short-circuited away whenever its result would matter for an absent date.) -/
def OrderDialog.isAmbiguousOpt : Option String → Bool
  | none => true
  | some s => OrderDialog.isAmbiguous s

/-- Embeds `itemStep`: prompt for the item when the `item` property is falsy,
otherwise skip ahead passing the pre-filled item. -/
def OrderDialog.itemStep (o : OrderDetails) : DialogAction :=
  if !(jsTruthy o.item) then
    .prompt TEXT_PROMPT "What would you like to order?"
  else
    .next (jsValOfOpt o.item)

/-- Embeds `deliveryDateStep`: store the previous step's result as `item`,
then test `!orderDetails.DeliveryDate || this.isAmbiguous(orderDetails.deliveryDate)`
(note the capital-`D` property in the first disjunct, exactly as the source
writes it) to decide between beginning the date-resolver sub-dialog and
skipping ahead with the stored date. -/
def OrderDialog.deliveryDateStep (o : OrderDetails) (result : JsVal) :
    OrderDetails × DialogAction :=
  let o' : OrderDetails := { o with item := jsToOptStr result }
  (o',
    if !(jsTruthy o'.DeliveryDate) || OrderDialog.isAmbiguousOpt o'.deliveryDate then
      .beginDialog DATE_RESOLVER_DIALOG (.resolverOpts o'.deliveryDate)
    else
      .next (jsValOfOpt o'.deliveryDate))

/-- Embeds `confirmStep`: store the previous step's result as `deliveryDate`
and issue the yes/no confirmation prompt. -/
def OrderDialog.confirmStep (o : OrderDetails) (result : JsVal) :
    OrderDetails × DialogAction :=
  let o' : OrderDetails := { o with deliveryDate := jsToOptStr result }
  (o',
    .prompt CONFIRM_PROMPT
      ("Please confirm, I have you ordering: " ++ jsDisplay o'.item ++
        " on: " ++ jsDisplay o'.deliveryDate ++ ". Is this correct?"))

/-- Embeds `finalStep`: when the confirmation result is strictly `true`, end
the dialog returning the order record; otherwise end it with no result. -/
def OrderDialog.finalStep (o : OrderDetails) (result : JsVal) : DialogAction :=
  match result with
  | .bool true => .endDialog (.order o)
  | _ => .endDialog .undefined

/-- The first reply in a list that is a definite date expression. -/
def firstDefiniteReply : List String → Option String
  | [] => none
  | r :: rs => if OrderDialog.isAmbiguous r then firstDefiniteReply rs else some r

/-- Modelled from the spec: `DateResolverDialog` (required from
`./dateResolverDialog`, a file not under `src/`).  Per spec section 4.1: when
given a definite date expression it returns it at once; otherwise it prompts
repeatedly until a reply yields a definite expression.  `none` models a run
whose replies never produce a definite date, i.e. the uncapped retry loop has
not terminated and no result is ever surfaced. -/
def dateResolverDialog : Option String → List String → Option String
  | some d, replies =>
    if OrderDialog.isAmbiguous d then firstDefiniteReply replies else some d
  | none, replies => firstDefiniteReply replies

/-- The value entering `deliveryDateStep` as `stepContext.result`: the user's
reply when `itemStep` prompted, the forwarded value when it skipped. -/
def OrderDialog.itemStepResult (o₀ : OrderDetails) (itemReply : String) : JsVal :=
  match OrderDialog.itemStep o₀ with
  | .next v => v
  | _ => .str itemReply

/-- The value entering `confirmStep` as `stepContext.result`, given the
action `deliveryDateStep` took: the date-resolver outcome when the sub-dialog
was begun, the forwarded date when the step skipped ahead. -/
def OrderDialog.dateStepResult (a : DialogAction) (dateReplies : List String) :
    Option String :=
  match a with
  | .beginDialog _ (.resolverOpts d) => dateResolverDialog d dateReplies
  | .next v => jsToOptStr v
  | _ => none

/-- The order record as it stands when the confirmation prompt is issued:
`item` as stored by `deliveryDateStep`, `deliveryDate` as stored by
`confirmStep`; `none` when the date never resolved. -/
def OrderDialog.recordAtConfirm (o₀ : OrderDetails) (itemReply : String)
    (dateReplies : List String) : Option OrderDetails :=
  match OrderDialog.dateStepResult
      (OrderDialog.deliveryDateStep o₀ (OrderDialog.itemStepResult o₀ itemReply)).2
      dateReplies with
  | none => none
  | some d =>
    some (OrderDialog.confirmStep
      (OrderDialog.deliveryDateStep o₀ (OrderDialog.itemStepResult o₀ itemReply)).1
      (.str d)).1

/-- One full run of the `OrderDialog` waterfall: the record surfaced to the
caller, given the initial options, the reply to an item prompt, the replies
available to the date resolver, and the confirmation answer. -/
def OrderDialog.runOrderForm (o₀ : OrderDetails) (itemReply : String)
    (dateReplies : List String) (confirmReply : Bool) : Option OrderDetails :=
  match OrderDialog.dateStepResult
      (OrderDialog.deliveryDateStep o₀ (OrderDialog.itemStepResult o₀ itemReply)).2
      dateReplies with
  | none => none
  | some d =>
    match OrderDialog.finalStep
        (OrderDialog.confirmStep
          (OrderDialog.deliveryDateStep o₀ (OrderDialog.itemStepResult o₀ itemReply)).1
          (.str d)).1
        (.bool confirmReply) with
    | .endDialog (.order o) => some o
    | _ => none

/-!
## MainDialog (`src/dialogs/mainDialog.js`)
-/

/-- The constructed `MainDialog` object (the collaborator it keeps). -/
structure MainDialog where
  luisRecognizer : OrderRecognizer
deriving Repr, DecidableEq

/-- Embeds the `MainDialog` constructor: a falsy `luisRecognizer` or a falsy
`orderDialog` parameter throws; otherwise the dialog is built, whatever the
recognizer's configuration state. -/
def MainDialog.construct (luisRecognizer : Option OrderRecognizer)
    (orderDialog : Option Unit) : Except String MainDialog :=
  match luisRecognizer with
  | none => .error "[MainDialog]: Missing parameter \x27luisRecognizer\x27 is required"
  | some lr =>
    match orderDialog with
    | none => .error "[MainDialog]: Missing parameter \x27orderDialog\x27 is required"
    | some _ => .ok { luisRecognizer := lr }

/-- Embeds `showWarningForUnsupportedItems`: the raw phrase is collected as
unsupported when it is truthy while the canonical `itemList` value is falsy,
and a single warning message listing the collected phrases is sent when any
were collected. -/
def MainDialog.showWarningForUnsupportedItems (deliverEntities : DeliverEntities) :
    List String :=
  let unsupportedItems : List String :=
    if jsTruthy deliverEntities.deliver && !(jsTruthy deliverEntities.itemList) then
      [jsDisplay deliverEntities.deliver]
    else []
  if unsupportedItems.length != 0 then
    ["Sorry but the following items are not deliverable: " ++
      String.intercalate ", " unsupportedItems]
  else []

/-- The observable outcome of one execution of `actStep`: whether the LUIS
query was executed, the activities sent, and the options the `orderDialog`
sub-dialog was begun with (`none` when no sub-dialog was begun). -/
structure ActOutcome where
  luisQueried : Bool
  messages : List String
  begunOrder : Option OrderDetails
deriving Repr, DecidableEq

/-- Embeds `actStep` of `mainDialog.js`: with an unconfigured recognizer the
`orderDialog` is begun at once on the fresh empty record and LUIS is never
queried; otherwise the query runs and the `PlaceOrder` intent fills the
record from the entities (emitting the unsupported-item warning first), while
any other intent sends the fallback message and begins no sub-dialog. -/
def MainDialog.actStep (isConfigured : Bool) (luisResult : LuisResult) : ActOutcome :=
  if !isConfigured then
    { luisQueried := false
      messages := []
      begunOrder := some { item := none, deliveryDate := none } }
  else if luisResult.topIntent = "PlaceOrder" then
    let deliverEntities := getDeliverEntities luisResult
    { luisQueried := true
      messages := MainDialog.showWarningForUnsupportedItems deliverEntities
      begunOrder := some { item := deliverEntities.itemList
                           deliveryDate := getDeliveryDate luisResult } }
  else
    { luisQueried := true
      messages := ["Sorry, I didn\x27t get that. Please try asking in a different way (intent was " ++
        luisResult.topIntent ++ ")"]
      begunOrder := none }

/-- Modelled from the spec: `TimexProperty.toNaturalLanguage`, the timex
library's natural-language rendering of the resolved date (the library is not
under `src/`; the exact wording is irrelevant to the properties below, so the
rendering is modelled as the date expression itself). -/
def naturalLanguageDate (d : Option String) : String := jsDisplay d

/-- Embeds the messages sent by `finalStep` of `mainDialog.js`: a completion
message is rendered exactly when the child dialog surfaced a (truthy) result
record. -/
def MainDialog.finalStepMessages (result : Option OrderDetails) : List String :=
  match result with
  | some r =>
    ["I have ordered you " ++ jsDisplay r.item ++ " on " ++
      naturalLanguageDate r.deliveryDate ++ "."]
  | none => []

/-!
## Sample inputs used by the witnesses
-/

/-- A LUIS result with a recognized Deliver phrase (`bicycle`) that resolved
to no canonical catalog item. -/
def sampleUnsupportedItemResult : LuisResult :=
  { topIntent := "PlaceOrder"
    entities :=
      { dollarInstanceDeliver := some [{ text := "bicycle" }]
        Deliver := some [{ ItemList := none }]
        datetime := none } }

/-- A LUIS result whose top intent is not `PlaceOrder`. -/
def sampleNoneIntentResult : LuisResult :=
  { topIntent := "None"
    entities := { dollarInstanceDeliver := none, Deliver := none, datetime := none } }

/-- A LUIS result whose first datetime TIMEX carries a time component. -/
def sampleDatetimeResult : LuisResult :=
  { topIntent := "PlaceOrder"
    entities :=
      { dollarInstanceDeliver := none
        Deliver := none
        datetime := some [{ timex := some ["2020-03-22T12:00", "2020-03-23"] }] } }

/-!
## Theorems
-/

/-- Helper: the prefix of a string before its first `T` contains no `T`. -/
theorem splitFirstT_not_mem (t : String) : 'T' ∉ (splitFirstT t).data := by
  intro hmem
  have h := List.mem_takeWhile_imp (p := fun c => c != 'T') hmem
  simp at h

/-- Helper: a singleton list intercalates to its element. -/
theorem intercalate_singleton (s x : String) : String.intercalate s [x] = x := rfl

/-- C1: evaluation at the failing input.  With the item and the definite date
`2020-03-22` both pre-filled, `deliveryDateStep` nevertheless begins the
`dateResolverDialog` sub-dialog (its guard reads the never-assigned property
`DeliveryDate`), rather than skipping ahead with the pre-filled date as the
spec and the step's own comment describe. -/
theorem deliveryDateStep_definite_prefilled_still_begins_resolver :
    OrderDialog.isAmbiguous "2020-03-22" = false ∧
    (OrderDialog.deliveryDateStep
        { item := some "rice", deliveryDate := some "2020-03-22" } (.str "rice")).2 =
      .beginDialog DATE_RESOLVER_DIALOG (.resolverOpts (some "2020-03-22")) :=
  ⟨by decide, rfl⟩

/-- C2: with an unconfigured recognizer, `actStep` begins the order dialog on
an empty order record (no item, no delivery date) and never executes the LUIS
query, whatever the recognition result would have been. -/
theorem actStep_unconfigured_begins_empty_order (r : LuisResult) :
    MainDialog.actStep false r =
      { luisQueried := false
        messages := []
        begunOrder := some { item := none, deliveryDate := none } } := rfl

/-- C3: when the confirmation prompt yields Yes, the order form surfaces to
its caller exactly the record as it stood at the confirmation step — the item
stored by `deliveryDateStep` and the delivery date stored by `confirmStep` —
with no field modified by `finalStep`. -/
theorem orderForm_confirm_yes_returns_record_at_confirm (o₀ : OrderDetails)
    (itemReply : String) (dateReplies : List String) :
    OrderDialog.runOrderForm o₀ itemReply dateReplies true =
      OrderDialog.recordAtConfirm o₀ itemReply dateReplies := by
  unfold OrderDialog.runOrderForm OrderDialog.recordAtConfirm
  cases OrderDialog.dateStepResult
      (OrderDialog.deliveryDateStep o₀ (OrderDialog.itemStepResult o₀ itemReply)).2
      dateReplies with
  | none => rfl
  | some d => rfl

/-- C4: when the confirmation prompt yields No, the order form surfaces no
record to its caller, and the main dialog's final step renders no completion
message. -/
theorem orderForm_confirm_no_yields_nothing (o₀ : OrderDetails)
    (itemReply : String) (dateReplies : List String) :
    OrderDialog.runOrderForm o₀ itemReply dateReplies false = none ∧
    MainDialog.finalStepMessages (OrderDialog.runOrderForm o₀ itemReply dateReplies false) = [] := by
  have h : OrderDialog.runOrderForm o₀ itemReply dateReplies false = none := by
    unfold OrderDialog.runOrderForm
    cases OrderDialog.dateStepResult
        (OrderDialog.deliveryDateStep o₀ (OrderDialog.itemStepResult o₀ itemReply)).2
        dateReplies with
    | none => rfl
    | some d => rfl
  exact ⟨h, by rw [h]; rfl⟩

/-- C5: on a `PlaceOrder` result, when a Deliver phrase was recognized but no
canonical item was resolved, `actStep` emits the warning listing the
unsupported phrase and begins the order dialog with the `item` field unset;
when a canonical item was resolved, no warning is emitted. -/
theorem actStep_placeOrder_unsupported_item_warning (r : LuisResult)
    (hpo : r.topIntent = "PlaceOrder") :
    (jsTruthy (getDeliverEntities r).deliver = true →
      (getDeliverEntities r).itemList = none →
        (MainDialog.actStep true r).messages =
          ["Sorry but the following items are not deliverable: " ++
            jsDisplay (getDeliverEntities r).deliver] ∧
        (MainDialog.actStep true r).begunOrder =
          some { item := none, deliveryDate := getDeliveryDate r }) ∧
    (jsTruthy (getDeliverEntities r).itemList = true →
      (MainDialog.actStep true r).messages = []) := by
  constructor
  · intro hdel hnone
    rcases hd : (getDeliverEntities r).deliver with _ | dv
    · rw [hd] at hdel
      simp [jsTruthy] at hdel
    · have hne : dv.isEmpty = false := by
        rw [hd] at hdel
        simpa [jsTruthy] using hdel
      constructor
      · simp [MainDialog.actStep, MainDialog.showWarningForUnsupportedItems, hpo,
          hd, hnone, jsTruthy, hne, jsDisplay, intercalate_singleton]
      · simp [MainDialog.actStep, hpo, hnone]
  · intro hitem
    simp [MainDialog.actStep, MainDialog.showWarningForUnsupportedItems, hpo, hitem]

/-- Witness for C5 at a concrete input: the phrase `bicycle` was recognized
but unresolved, so the warning names it and the begun record's item is
unset. -/
theorem actStep_placeOrder_unsupported_item_warning_witness :
    (MainDialog.actStep true sampleUnsupportedItemResult).messages =
      ["Sorry but the following items are not deliverable: " ++
        jsDisplay (getDeliverEntities sampleUnsupportedItemResult).deliver] ∧
    (MainDialog.actStep true sampleUnsupportedItemResult).begunOrder =
      some { item := none, deliveryDate := getDeliveryDate sampleUnsupportedItemResult } :=
  (actStep_placeOrder_unsupported_item_warning sampleUnsupportedItemResult rfl).1 rfl rfl

/-- C6: on any result whose top intent is not `PlaceOrder`, `actStep` sends
the fallback message naming the intent and begins no order dialog. -/
theorem actStep_other_intent_no_order (r : LuisResult)
    (h : ¬ r.topIntent = "PlaceOrder") :
    MainDialog.actStep true r =
      { luisQueried := true
        messages := ["Sorry, I didn\x27t get that. Please try asking in a different way (intent was " ++
          r.topIntent ++ ")"]
        begunOrder := none } := by
  simp [MainDialog.actStep, h]

/-- Witness for C6 at a concrete input with top intent `None`. -/
theorem actStep_other_intent_no_order_witness :
    MainDialog.actStep true sampleNoneIntentResult =
      { luisQueried := true
        messages := ["Sorry, I didn\x27t get that. Please try asking in a different way (intent was " ++
          sampleNoneIntentResult.topIntent ++ ")"]
        begunOrder := none } :=
  actStep_other_intent_no_order sampleNoneIntentResult (by decide)

/-- C7: constructing the main dialog without the recognizer or without the
order sub-dialog raises the corresponding construction-time error, while
construction with both collaborators succeeds for every recognizer — in
particular for the unconfigured recognizer built from an absent config. -/
theorem mainDialog_construction_requires_collaborators :
    (∀ od, MainDialog.construct none od =
      .error "[MainDialog]: Missing parameter \x27luisRecognizer\x27 is required") ∧
    (∀ lr, MainDialog.construct (some lr) none =
      .error "[MainDialog]: Missing parameter \x27orderDialog\x27 is required") ∧
    (∀ lr, MainDialog.construct (some lr) (some ()) = .ok { luisRecognizer := lr }) ∧
    (OrderRecognizer.ofConfig none).isConfigured = false ∧
    MainDialog.construct (some (OrderRecognizer.ofConfig none)) (some ()) =
      .ok { luisRecognizer := OrderRecognizer.ofConfig none } :=
  ⟨fun _ => rfl, fun _ => rfl, fun _ => rfl, rfl, rfl⟩

/-- C8: the item step skips its prompt and forwards the pre-filled item when
the `item` field holds a (nonempty) value, and otherwise prompts and the next
step stores the raw reply verbatim as the item. -/
theorem itemStep_prefill_skip_or_prompt_verbatim (o : OrderDetails) (reply : String) :
    (o.item = none →
      OrderDialog.itemStep o = .prompt TEXT_PROMPT "What would you like to order?" ∧
      (OrderDialog.deliveryDateStep o (.str reply)).1.item = some reply) ∧
    (∀ s, o.item = some s → s.isEmpty = false →
      OrderDialog.itemStep o = .next (.str s) ∧
      (OrderDialog.deliveryDateStep o (.str s)).1.item = some s) := by
  constructor
  · intro h
    exact ⟨by simp [OrderDialog.itemStep, h, jsTruthy], rfl⟩
  · intro s hs hne
    exact ⟨by simp [OrderDialog.itemStep, hs, jsTruthy, hne, jsValOfOpt], rfl⟩

/-- Witness for C8 at a concrete input: with no pre-filled item the prompt is
issued and the reply `bicycle` is stored verbatim. -/
theorem itemStep_prefill_skip_or_prompt_verbatim_witness :
    OrderDialog.itemStep { item := none, deliveryDate := none } =
      .prompt TEXT_PROMPT "What would you like to order?" ∧
    (OrderDialog.deliveryDateStep { item := none, deliveryDate := none }
      (.str "bicycle")).1.item = some "bicycle" :=
  (itemStep_prefill_skip_or_prompt_verbatim { item := none, deliveryDate := none } "bicycle").1 rfl

/-- C9: a date expression lacking a year, or lacking a day of month (such as
`2020-03`), is classified ambiguous; an expression is classified definite
exactly when year, month and day of month are all specified (one calendar
date); and the resolver does not accept an ambiguous expression (with no
further definite reply it produces no result, i.e. keeps re-prompting). -/
theorem dateExpression_definiteness_check (s : String) :
    ((parseTimexDate s).year = none → OrderDialog.isAmbiguous s = true) ∧
    ((parseTimexDate s).dayOfMonth = none → OrderDialog.isAmbiguous s = true) ∧
    OrderDialog.isAmbiguous "2020-03" = true ∧
    (OrderDialog.isAmbiguous s = false ↔
      ((parseTimexDate s).year.isSome = true ∧ (parseTimexDate s).month.isSome = true ∧
        (parseTimexDate s).dayOfMonth.isSome = true)) ∧
    (OrderDialog.isAmbiguous s = true → dateResolverDialog (some s) [] = none) := by
  refine ⟨?_, ?_, by decide, ?_, ?_⟩
  · intro h
    simp [OrderDialog.isAmbiguous, TimexProps.hasDefiniteType, h]
  · intro h
    simp [OrderDialog.isAmbiguous, TimexProps.hasDefiniteType, h]
  · simp [OrderDialog.isAmbiguous, TimexProps.hasDefiniteType, and_assoc]
  · intro h
    simp [dateResolverDialog, h, firstDefiniteReply]

/-- Witness for C9 at a concrete input: the yearless expression `XXXX-03-22`
is classified ambiguous. -/
theorem dateExpression_definiteness_check_witness :
    OrderDialog.isAmbiguous "XXXX-03-22" = true :=
  (dateExpression_definiteness_check "XXXX-03-22").1 (by decide)

/-- C10: `getDeliveryDate` is total: it yields nothing when the datetime
entity, its first element, its timex list, or a (nonempty) first TIMEX string
is absent, and otherwise yields the first TIMEX string truncated at its first
`T`, so the returned expression never contains a time component. -/
theorem getDeliveryDate_totality_and_truncation (r : LuisResult) :
    (r.entities.datetime = none → getDeliveryDate r = none) ∧
    (∀ des, r.entities.datetime = some des → des.head? = none →
      getDeliveryDate r = none) ∧
    (∀ des de, r.entities.datetime = some des → des.head? = some de →
      de.timex = none → getDeliveryDate r = none) ∧
    (∀ des de ts, r.entities.datetime = some des → des.head? = some de →
      de.timex = some ts → ts.head? = none → getDeliveryDate r = none) ∧
    (∀ des de ts, r.entities.datetime = some des → des.head? = some de →
      de.timex = some ts → ts.head? = some "" → getDeliveryDate r = none) ∧
    (∀ des de ts t, r.entities.datetime = some des → des.head? = some de →
      de.timex = some ts → ts.head? = some t → t.isEmpty = false →
      getDeliveryDate r = some (splitFirstT t)) ∧
    (∀ s, getDeliveryDate r = some s → 'T' ∉ s.data) := by
  refine ⟨?_, ?_, ?_, ?_, ?_, ?_, ?_⟩
  · intro h
    simp [getDeliveryDate, h]
  · intro des h1 h2
    simp [getDeliveryDate, h1, h2]
  · intro des de h1 h2 h3
    simp [getDeliveryDate, h1, h2, h3]
  · intro des de ts h1 h2 h3 h4
    simp [getDeliveryDate, h1, h2, h3, h4]
  · intro des de ts h1 h2 h3 h4
    simp [getDeliveryDate, h1, h2, h3, h4, String.isEmpty]
  · intro des de ts t h1 h2 h3 h4 h5
    simp [getDeliveryDate, h1, h2, h3, h4, h5]
  · intro s hs
    unfold getDeliveryDate at hs
    repeat' split at hs
    all_goals first
      | (cases hs; exact splitFirstT_not_mem _)
      | cases hs

/-- Witness for C10 at a concrete input: the first TIMEX
`2020-03-22T12:00` is returned with its time part dropped. -/
theorem getDeliveryDate_totality_and_truncation_witness :
    getDeliveryDate sampleDatetimeResult = some (splitFirstT "2020-03-22T12:00") :=
  (getDeliveryDate_totality_and_truncation sampleDatetimeResult).2.2.2.2.2.1
    _ _ _ "2020-03-22T12:00" rfl rfl rfl rfl rfl
